import Mathlib

/-!
Verification of the gosocksv5d SOCKS5 server against its specification.

The Go sources are shallowly embedded: each Go function relevant to the
claims is translated into a Lean definition over explicit inputs.
Byte streams read from a socket are modelled as an infinite sequence of
byte values together with a read position; network effects (resolver
results, ruler decisions, dial results, read and write completions) are
supplied as explicit inputs, since the Go code receives them from the
environment.  Panics in Go unwind to a recover at the connection
boundary; the embedding reflects a panic as a distinguished outcome
value rather than by raising anything.
-/

namespace GoSocks

/-- Byte values on the wire are modelled as natural numbers; well-formed
streams take values below 256, which no claim depends on. -/
abbrev Byte := Nat

/-- A resolved or literal candidate address, as used by the dial loop.
Modelled as its byte list; only identity matters to the claims. -/
abbrev IP := List Nat

/-! Constants from the source file (const block of the connection file). -/

/-- bufSize = 1 << 16 -/
def bufSize : Nat := 2 ^ 16

/-- timeoutDiff = 10 * time.Minute, in nanoseconds as a Go duration. -/
def timeoutDiff : Nat := 10 * 60 * 1000000000

def protoVersion : Nat := 0x5

def atypeIPV4 : Nat := 0x1
def atypeIPV6 : Nat := 0x4
def atypeDomain : Nat := 0x3

def cmdConnect : Nat := 0x1
def cmdBind : Nat := 0x2
def cmdAssoc : Nat := 0x3

def repSuccess : Nat := 0x0
def repFailure : Nat := 0x1
def repNotAllowed : Nat := 0x2
def repNetUnreachable : Nat := 0x3
def repHostUnreachable : Nat := 0x4
def repRefused : Nat := 0x5
def repTTL : Nat := 0x6
def repNotSupported : Nat := 0x7
def repNotAddressable : Nat := 0x8

/-! The incoming byte stream of a connection, as consumed by
sockConn.readAll.  readAll(count) returns the next count bytes and
advances the position. -/

deriving instance DecidableEq for Except

structure RStream where
  data : Nat → Byte
  pos : Nat

/-- sockConn.readAll: reads exactly count bytes from the stream. -/
def readAll (s : RStream) (count : Nat) : List Byte × RStream :=
  ((List.range count).map fun i => s.data (s.pos + i), ⟨s.data, s.pos + count⟩)

/-! Rolling deadlines: sockConn.Read and sockConn.Write call
SetReadDeadline(timeout()) resp. SetWriteDeadline(timeout()) before
delegating to the underlying connection.  timeout() = now + timeoutDiff.
The result of the underlying I/O operation is an input here. -/

structure SockState where
  rdDeadline : Nat
  wrDeadline : Nat
deriving DecidableEq, Repr

/-- Result of an underlying conn.Read or conn.Write call, supplied as
input: either n bytes transferred, or an error. -/
inductive IOResult
  | okBytes (n : Nat)
  | errRes
deriving DecidableEq, Repr

/-- timeout() = time.Now().Add(timeoutDiff). -/
def timeoutAt (now : Nat) : Nat := now + timeoutDiff

/-- sockConn.Read: sets the read deadline, then performs the read. -/
def sockRead (st : SockState) (now : Nat) (res : IOResult) : SockState × IOResult :=
  ({ st with rdDeadline := timeoutAt now }, res)

/-- sockConn.Write: sets the write deadline, then performs the write. -/
def sockWrite (st : SockState) (now : Nat) (res : IOResult) : SockState × IOResult :=
  ({ st with wrDeadline := timeoutAt now }, res)

/-! Handshake (sockConn.handshake). -/

inductive HSOutcome
  | ok
  | abortBadVersion
  | abortNoMethod
deriving DecidableEq, Repr

/-- sockConn.handshake: read 2 bytes (version, nmethods); bad version
panics with no reply; then read nmethods method bytes; method 0x00
present yields reply {0x5, 0x0} and success, otherwise reply
{0x5, 0xff} and panic. Returns (bytes written, outcome, rest of stream). -/
def handshake (s : RStream) : List Byte × HSOutcome × RStream :=
  let (hs, s1) := readAll s 2
  if hs.getD 0 0 ≠ protoVersion then ([], .abortBadVersion, s1)
  else
    let (methods, s2) := readAll s1 (hs.getD 1 0)
    if methods.contains 0 then ([0x5, 0x0], .ok, s2)
    else ([0x5, 0xff], .abortNoMethod, s2)

/-! Access policy (defaultRuler.ConnectionAllowed in resolver.go).
Library facts about addresses (IsGlobalUnicast, InterfaceAddrs, Equal,
Contains) are inputs: interface address entries carry their data. -/

inductive RulerResult
  | DenyConnection
  | AllowConnection
deriving DecidableEq, Repr

/-- One entry of net.InterfaceAddrs(): a host address, a network with
its membership test, or an address of some other dynamic type (which
the switch in the source ignores). -/
inductive IfaceAddr
  | ipAddr (ip : Nat)
  | ipNet (contains : Nat → Bool)
  | otherAddr

/-- The network environment seen by defaultRuler: the IsGlobalUnicast
test and the result of net.InterfaceAddrs (which can fail). -/
structure NetEnv where
  isGlobalUnicast : Nat → Bool
  interfaceAddrs : Except Unit (List IfaceAddr)

/-- The range loop of ConnectionAllowed: deny on the first interface
address equal to the requested IP or network containing it. -/
def checkAddrs (requested : Nat) : List IfaceAddr → RulerResult
  | [] => .AllowConnection
  | .ipAddr ip :: rest =>
      if ip = requested then .DenyConnection else checkAddrs requested rest
  | .ipNet c :: rest =>
      if c requested then .DenyConnection else checkAddrs requested rest
  | .otherAddr :: rest => checkAddrs requested rest

/-- defaultRuler.ConnectionAllowed. -/
def ConnectionAllowed (env : NetEnv) (_requestee requested : Nat) : RulerResult :=
  if !(env.isGlobalUnicast requested) then .DenyConnection
  else
    match env.interfaceAddrs with
    | .error _ => .DenyConnection
    | .ok addrs => checkAddrs requested addrs

/-! Shuffling resolver decorator (shuffleResolver.LookupIP).
The loop is: for n := len(addrs); n > 1; n-- { if r := rand.Intn(n+1);
r != n { addrs[r], addrs[n] = addrs[n], addrs[r] } }.
rand models the value drawn by rand.Intn(n+1) at loop counter n.
Indexing a slice out of range panics in Go; the embedding returns none
in that case. -/

/-- Go parallel assignment addrs[i], addrs[j] = addrs[j], addrs[i]:
both right-hand sides are read from the original slice. -/
def swapL (l : List IP) (i j : Nat) : List IP :=
  (l.set i (l.getD j [])).set j (l.getD i [])

def shuffleLoop (rand : Nat → Nat) : Nat → List IP → Option (List IP)
  | 0, addrs => some addrs
  | 1, addrs => some addrs
  | n + 2, addrs =>
    let r := rand (n + 2)
    if r = n + 2 then shuffleLoop rand (n + 1) addrs
    else if r < addrs.length ∧ n + 2 < addrs.length then
      shuffleLoop rand (n + 1) (swapL addrs r (n + 2))
    else none

/-- shuffleResolver.LookupIP: pass errors through; shuffle the address
slice otherwise.  none models an index-out-of-range panic. -/
def shuffleLookupIP (rand : Nat → Nat) (wrapped : Except Unit (List IP)) :
    Option (Except Unit (List IP)) :=
  match wrapped with
  | .error e => some (.error e)
  | .ok addrs => (shuffleLoop rand addrs.length addrs).map .ok

/-! Request phase (sockConn.connect).  Inputs from the environment:
the resolver result for a looked-up domain, the ruler decision per
candidate, and the dial result per (candidate, port). -/

/-- Classification of a failed net.DialTCP: a net.InvalidAddrError
maps to repNotAddressable, anything else to repFailure. -/
inductive DialError
  | invalidAddr
  | otherErr
deriving DecidableEq, Repr

/-- The environment of one connect invocation.  lip4 is the To4() view
of the server local IP (none when it is not an IPv4 address) and lip16
its To16() bytes, used only by the success reply. -/
structure ConnEnv where
  resolver : List Byte → Except Unit (List IP)
  allowed : IP → RulerResult
  dial : IP → Nat → Except DialError Unit
  lip4 : Option (List Byte)
  lip16 : List Byte

inductive ConnectOutcome
  | success
  | errorReply (code : Nat)
  | panicNoReply
  | nilConnPanic
deriving DecidableEq, Repr

/-- Result of connect: all bytes written to the client during the
request phase, the outcome, and (as instrumentation) the list of
candidates for which a dial was attempted. -/
structure ConnectRes where
  writes : List Byte
  outcome : ConnectOutcome
  dialed : List IP
deriving DecidableEq, Repr

/-- sockConn.writeError(rsp, err): write the fixed ten byte failure
reply {protoVersion, rsp, 0x0, atypeIPV4, 0,0,0,0,0,0}, then panic. -/
def errBytes (rsp : Nat) : List Byte :=
  [protoVersion, rsp, 0x0, atypeIPV4, 0x0, 0x0, 0x0, 0x0, 0x0, 0x0]

/-- A connect result produced through sockConn.writeError. -/
def writeErrorRes (rsp : Nat) (ds : List IP) : ConnectRes :=
  ⟨errBytes rsp, .errorReply rsp, ds⟩

inductive DialLoopResult
  | deniedAbort
  | connected
  | exhausted (last : Option DialError)
deriving DecidableEq, Repr

/-- The candidate loop in connect: for each candidate, consult the
ruler; denial calls writeError(repNotAllowed, ...) which panics out of
the loop; otherwise dial, returning on the first success and carrying
the last dial error otherwise.  Also returns the candidates dialed. -/
def dialLoop (allowed : IP → RulerResult) (dial : IP → Except DialError Unit) :
    List IP → Option DialError → DialLoopResult × List IP
  | [], last => (.exhausted last, [])
  | rip :: rest, _ =>
    match allowed rip with
    | .DenyConnection => (.deniedAbort, [])
    | .AllowConnection =>
      match dial rip with
      | .ok _ => (.connected, [rip])
      | .error e =>
        let (r, ds) := dialLoop allowed dial rest (some e)
        (r, rip :: ds)

/-- The address-type switch in connect: produce the candidate list, or
the reply code of the writeError taken inside the switch.  The IPv4
case builds a single candidate from 4 bytes, the IPv6 case from 16
bytes, the domain case reads a length byte plus the domain and asks
the resolver; any other tag is repNotAddressable, as is a resolver
error. -/
def addrPhase (resolver : List Byte → Except Unit (List IP)) (atyp : Nat)
    (s : RStream) : Except Nat (List IP × RStream) :=
  if atyp = atypeIPV4 then
    let (rawip, s1) := readAll s 4
    .ok ([rawip], s1)
  else if atyp = atypeIPV6 then
    let (raw, s1) := readAll s 16
    .ok ([raw], s1)
  else if atyp = atypeDomain then
    let (lenb, s1) := readAll s 1
    let (domain, s2) := readAll s1 (lenb.getD 0 0)
    match resolver domain with
    | .error _ => .error repNotAddressable
    | .ok ips => .ok (ips, s2)
  else .error repNotAddressable

/-- The success reply of connect: {protoVersion, repSuccess, 0x0}, the
address type tag and bytes of the server local IP, and the destination
port back in big-endian. -/
def successBytes (env : ConnEnv) (port : Nat) : List Byte :=
  [protoVersion, repSuccess, 0x0] ++
    (match env.lip4 with
     | some b4 => atypeIPV4 :: b4
     | none => atypeIPV6 :: env.lip16) ++
    [port / 256 % 256, port % 256]

/-- What connect does after the candidate loop: a denial aborted via
writeError(repNotAllowed, ...); a connection proceeds to the success
reply; an exhausted loop with a recorded dial error classifies it
(net.InvalidAddrError to repNotAddressable, else repFailure); an
exhausted loop with no error (empty candidate list) reaches
newSockConn(nil, ...), which dereferences the nil connection: a
runtime panic before any reply (nilConnPanic). -/
def dialDispatch (env : ConnEnv) (port : Nat) : DialLoopResult × List IP → ConnectRes
  | (.deniedAbort, ds) => writeErrorRes repNotAllowed ds
  | (.connected, ds) => ⟨successBytes env port, .success, ds⟩
  | (.exhausted none, ds) => ⟨[], .nilConnPanic, ds⟩
  | (.exhausted (some .invalidAddr), ds) => writeErrorRes repNotAddressable ds
  | (.exhausted (some .otherErr), ds) => writeErrorRes repFailure ds

/-- sockConn.connect: read 4 bytes (version, command, reserved, atyp);
a version mismatch panics with no reply; a command other than CONNECT
replies repNotSupported; the address phase produces the candidates;
2 port bytes are read big-endian; then the candidate loop runs and its
result is dispatched. -/
def connect (env : ConnEnv) (s : RStream) : ConnectRes :=
  let (command, s1) := readAll s 4
  if command.getD 0 0 ≠ protoVersion then ⟨[], .panicNoReply, []⟩
  else if command.getD 1 0 ≠ cmdConnect then writeErrorRes repNotSupported []
  else
    match addrPhase env.resolver (command.getD 3 0) s1 with
    | .error code => writeErrorRes code []
    | .ok (rips, s2) =>
      let (pb, _) := readAll s2 2
      let port := pb.getD 0 0 * 256 + pb.getD 1 0
      dialDispatch env port (dialLoop env.allowed (fun rip => env.dial rip port) rips none)

/-- The domain bytes a connect invocation reads from the stream when
the address type is atypeDomain: a length byte at offset 4, then that
many bytes. -/
def reqDomain (s : RStream) : List Byte :=
  (List.range (s.data (s.pos + 4))).map fun i => s.data (s.pos + 4 + 1 + i)

/-- The destination port a domain-type connect invocation reads, at
the two positions after the domain bytes. -/
def reqPort (s : RStream) : Nat :=
  s.data (s.pos + 4 + 1 + s.data (s.pos + 4)) * 256 +
    s.data (s.pos + 4 + 1 + s.data (s.pos + 4) + 1)

/-! Connection handler (sockConn.handle): handshake, then connect; a
handshake panic is recovered at the handler and connect is never
reached. -/

inductive HandleOutcome
  | handshakeAbort
  | connectDone (c : ConnectOutcome)
deriving DecidableEq, Repr

/-- sockConn.handle, up to the relay phase: the bytes written and how
far the state machine got. -/
def handle (env : ConnEnv) (s : RStream) : List Byte × HandleOutcome :=
  match handshake s with
  | (w, .ok, s1) =>
    let r := connect env s1
    (w ++ r.writes, .connectDone r.outcome)
  | (w, .abortBadVersion, _) => (w, .handshakeAbort)
  | (w, .abortNoMethod, _) => (w, .handshakeAbort)

/-! Relay loop (sockConn.copyFrom).  One directional task; the source
read results and destination write results are inputs, consumed in
order.  The 64 KiB buffer persists across reads; wbuf is a slice of it
described by an offset and a remaining slice length.  The source
updates after a write of nw out of nr bytes are nr -= nw and
wbuf = wbuf[nr:], with the new nr: the embedding keeps that arithmetic
as written. -/

inductive RErr
  | timeoutE
  | temporaryE
  | otherE
deriving DecidableEq, Repr

inductive WErr
  | timeoutW
  | temporaryW
  | otherW
deriving DecidableEq, Repr

/-- One result of sock.Read(buf): the bytes placed at the start of the
buffer and the accompanying error, if any. -/
structure ReadEv where
  data : List Byte
  err : Option RErr
deriving DecidableEq, Repr

/-- One result of dst.Write(wbuf[0:nr]): the count written (at most the
length of the slice handed in) and the accompanying error, if any. -/
structure WriteEv where
  nw : Nat
  err : Option WErr
deriving DecidableEq, Repr

/-- How a directional copy ended.  ranOut marks exhaustion of the
supplied event trace (the loop itself would keep running). -/
inductive CopyEnd
  | fatalRead
  | fatalWrite
  | slicePanic
  | ranOut
deriving DecidableEq, Repr

/-- The inner write loop: while nr > 0, write wbuf[0:nr] (a slice of
buf at offset with slen bytes left; slicing beyond slen panics), then
nr -= nw; wbuf = wbuf[nr:]; a timeout or temporary write error
continues, any other write error panics.  Returns the bytes delivered
to the destination, the unconsumed write events, and the status. -/
def writePhase (buf : Nat → Byte) (offset slen : Nat) :
    Nat → List WriteEv → List Byte × List WriteEv × Except CopyEnd Unit
  | 0, ws => ([], ws, .ok ())
  | nr + 1, ws =>
    if nr + 1 ≤ slen then
      match ws with
      | [] => ([], [], .error .ranOut)
      | ev :: ws1 =>
        let n := nr + 1
        let nw := min ev.nw n
        let delivered := (List.range nw).map fun i => buf (offset + i)
        let nr1 := n - nw
        let offset1 := offset + nr1
        let slen1 := slen - nr1
        match ev.err with
        | some .otherW => (delivered, ws1, .error .fatalWrite)
        | _ =>
          let (out, ws2, st) := writePhase buf offset1 slen1 nr1 ws1
          (delivered ++ out, ws2, st)
    else ([], ws, .error .slicePanic)

/-- The outer read loop of copyFrom: each iteration reads (updating the
buffer prefix), runs the write loop over the bytes read, then treats a
timeout or temporary read error as a retry and any other read error as
fatal. -/
def copyLoop (buf : Nat → Byte) : List ReadEv → List WriteEv → List Byte × CopyEnd
  | [], _ => ([], .ranOut)
  | rev :: rs, ws =>
    let nr := rev.data.length
    let buf1 := fun i => rev.data.getD i (buf i)
    match writePhase buf1 0 bufSize nr ws with
    | (delivered, _, .error e) => (delivered, e)
    | (delivered, ws1, .ok _) =>
      match rev.err with
      | some .otherE => (delivered, .fatalRead)
      | _ =>
        let (out, e) := copyLoop buf1 rs ws1
        (delivered ++ out, e)

/-- Whether the directional task actually terminated (every real
termination of the Go loop is a panic recovered by the deferred
function). -/
def realEnd : CopyEnd → Bool
  | .ranOut => false
  | _ => true

/-- Outcome of one directional task including its deferred cleanup:
the deferred function always runs CloseRead on the source, CloseWrite
on the destination, and sends the completion signal. -/
structure CopyResult where
  output : List Byte
  ended : CopyEnd
  halfClosed : Bool
  signaled : Bool
deriving DecidableEq, Repr

/-- sockConn.copyFrom over a fresh zeroed 64 KiB buffer. -/
def copyFrom (reads : List ReadEv) (writes : List WriteEv) : CopyResult :=
  let (out, e) := copyLoop (fun _ => 0) reads writes
  { output := out, ended := e, halfClosed := realEnd e, signaled := realEnd e }

/-- The wait at the end of sockConn.handle: the controlling task
receives from the completion channel once per direction, so it returns
— running the deferred Close on both transports, the full teardown —
exactly when both directional tasks have sent their completion
signal. -/
def relayTeardown (dir1 dir2 : CopyResult) : Bool :=
  dir1.signaled && dir2.signaled

/-! Server configuration mutators (server.go as shown in the package
documentation).  A Go panic leaves the receiver unmutated here because
the field assignment follows the panicIfListening call; the embedding
returns the (unchanged or updated) state together with the panic. -/

/-- The resolver value held by the server: the default, a raw value, or
a value wrapped by SetDNSResolver in a shuffleResolver. -/
inductive ResolverV
  | defaultResolverV
  | shuffled (id : Nat)
deriving DecidableEq, Repr

structure ServerState where
  instances : Nat
  resolver : ResolverV
  logger : Nat
  ruler : Nat
deriving DecidableEq, Repr

inductive GoPanic
  | alreadyListening
deriving DecidableEq, Repr

/-- server.panicIfListening. -/
def panicIfListening (s : ServerState) : Option GoPanic :=
  if s.instances > 0 then some .alreadyListening else none

/-- server.SetDNSResolver: panic if listening, else store
shuffleResolver{resolver}. -/
def SetDNSResolver (s : ServerState) (r : Nat) : ServerState × Option GoPanic :=
  match panicIfListening s with
  | some e => (s, some e)
  | none => ({ s with resolver := .shuffled r }, none)

/-- server.SetLogger. -/
def SetLogger (s : ServerState) (l : Nat) : ServerState × Option GoPanic :=
  match panicIfListening s with
  | some e => (s, some e)
  | none => ({ s with logger := l }, none)

/-- server.SetRuler. -/
def SetRuler (s : ServerState) (ru : Nat) : ServerState × Option GoPanic :=
  match panicIfListening s with
  | some e => (s, some e)
  | none => ({ s with ruler := ru }, none)

/-! Helper lemmas shared by the claim theorems. -/

lemma range_four_map (f : Nat → Nat) :
    (List.range 4).map f = [f 0, f 1, f 2, f 3] := by
  have h : List.range 4 = [0, 1, 2, 3] := rfl
  rw [h]; rfl

lemma range_two_map (f : Nat → Nat) :
    (List.range 2).map f = [f 0, f 1] := by
  have h : List.range 2 = [0, 1] := rfl
  rw [h]; rfl

lemma range_one_map (f : Nat → Nat) :
    (List.range 1).map f = [f 0] := by
  have h : List.range 1 = [0] := rfl
  rw [h]; rfl

/-- Evaluation of handshake on a symbolic stream. -/
lemma handshake_eval (s : RStream) :
    handshake s =
      if s.data s.pos ≠ protoVersion then ([], .abortBadVersion, ⟨s.data, s.pos + 2⟩)
      else if ((List.range (s.data (s.pos + 1))).map fun i =>
          s.data (s.pos + 2 + i)).contains 0 then
        ([0x5, 0x0], .ok, ⟨s.data, s.pos + 2 + s.data (s.pos + 1)⟩)
      else ([0x5, 0xff], .abortNoMethod, ⟨s.data, s.pos + 2 + s.data (s.pos + 1)⟩) := by
  unfold handshake readAll
  rw [range_two_map]
  simp

/-- When a domain-type CONNECT request parses and the resolver returns
candidates, connect is the candidate loop followed by the reply
dispatch. -/
lemma connect_domain (env : ConnEnv) (s : RStream) (rips : List IP)
    (hv : s.data s.pos = protoVersion)
    (hc : s.data (s.pos + 1) = cmdConnect)
    (ha : s.data (s.pos + 3) = atypeDomain)
    (hr : env.resolver (reqDomain s) = .ok rips) :
    connect env s =
      dialDispatch env (reqPort s)
        (dialLoop env.allowed (fun rip => env.dial rip (reqPort s)) rips none) := by
  unfold reqDomain at hr
  unfold connect addrPhase reqPort
  simp only [readAll, range_four_map, range_one_map, range_two_map]
  simp only [List.getD, List.get?, Option.getD, Nat.add_zero]
  rw [hv, hc, ha]
  rw [if_neg (show ¬(protoVersion ≠ protoVersion) from by simp)]
  rw [if_neg (show ¬(cmdConnect ≠ cmdConnect) from by simp)]
  rw [if_neg (show ¬(atypeDomain = atypeIPV4) from by decide)]
  rw [if_neg (show ¬(atypeDomain = atypeIPV6) from by decide)]
  rw [if_pos (show atypeDomain = atypeDomain from rfl)]
  rw [hr]

/-- When a domain-type CONNECT request parses and the resolver fails,
connect replies repNotAddressable and aborts; no dial is attempted. -/
lemma connect_domain_err (env : ConnEnv) (s : RStream)
    (hv : s.data s.pos = protoVersion)
    (hc : s.data (s.pos + 1) = cmdConnect)
    (ha : s.data (s.pos + 3) = atypeDomain)
    (hr : env.resolver (reqDomain s) = .error ()) :
    connect env s = writeErrorRes repNotAddressable [] := by
  unfold reqDomain at hr
  unfold connect addrPhase
  simp only [readAll, range_four_map, range_one_map]
  simp only [List.getD, List.get?, Option.getD, Nat.add_zero]
  rw [hv, hc, ha]
  rw [if_neg (show ¬(protoVersion ≠ protoVersion) from by simp)]
  rw [if_neg (show ¬(cmdConnect ≠ cmdConnect) from by simp)]
  rw [if_neg (show ¬(atypeDomain = atypeIPV4) from by decide)]
  rw [if_neg (show ¬(atypeDomain = atypeIPV6) from by decide)]
  rw [if_pos (show atypeDomain = atypeDomain from rfl)]
  rw [hr]

/-- The candidate loop aborts at the first denied candidate, having
dialed exactly the (allowed but undialable) candidates before it. -/
lemma dialLoop_denied (allowed : IP → RulerResult) (dial : IP → Except DialError Unit)
    (rips : List IP) (k : Nat) (last : Option DialError)
    (hk : k < rips.length)
    (hden : allowed (rips.getD k []) = .DenyConnection)
    (hbef : ∀ j, j < k → allowed (rips.getD j []) = .AllowConnection ∧
        ∃ e, dial (rips.getD j []) = .error e) :
    dialLoop allowed dial rips last = (.deniedAbort, rips.take k) := by
  induction rips generalizing k last with
  | nil => exact absurd hk (by simp)
  | cons rip rest ih =>
    cases k with
    | zero =>
      simp only [List.getD_cons_zero] at hden
      simp [dialLoop, hden]
    | succ k1 =>
      obtain ⟨hall, e, hde⟩ := hbef 0 (Nat.succ_pos k1)
      simp only [List.getD_cons_zero] at hall hde
      have hrec := ih k1 (some e) (by simpa using hk)
        (by simpa using hden)
        (fun j hj => by
          have := hbef (j + 1) (Nat.succ_lt_succ hj)
          simpa using this)
      simp [dialLoop, hall, hde, hrec]

/-- A directional task that actually terminated (any end other than
trace exhaustion) has run its deferred half-close and completion
signal. -/
lemma copyFrom_signaled (rs : List ReadEv) (ws : List WriteEv)
    (h : (copyFrom rs ws).ended ≠ .ranOut) :
    (copyFrom rs ws).halfClosed = true ∧ (copyFrom rs ws).signaled = true := by
  unfold copyFrom at h ⊢
  rcases hcl : copyLoop (fun _ => 0) rs ws with ⟨o, e⟩
  rw [hcl] at h
  cases e <;> simp_all [realEnd]

/-- Any error reply produced by the post-loop dispatch carries the
fixed ten-byte writeError form for its code. -/
lemma dialDispatch_err (env : ConnEnv) (port : Nat) (x : DialLoopResult × List IP)
    (c : Nat) (h : (dialDispatch env port x).outcome = .errorReply c) :
    (dialDispatch env port x).writes = errBytes c := by
  rcases x with ⟨r, ds⟩
  rcases r with _ | _ | last
  · simp_all [dialDispatch, writeErrorRes]
  · simp_all [dialDispatch]
  · rcases last with _ | e
    · simp_all [dialDispatch]
    · rcases e with _ | _ <;> simp_all [dialDispatch, writeErrorRes]

/-- The allow case of the interface-address loop, as a predicate on the
entries. -/
lemma checkAddrs_allow_iff (requested : Nat) (l : List IfaceAddr) :
    checkAddrs requested l = .AllowConnection ↔
      ∀ a ∈ l, (∀ ip, a = .ipAddr ip → ip ≠ requested) ∧
               (∀ c, a = .ipNet c → c requested = false) := by
  induction l with
  | nil => simp [checkAddrs]
  | cons a rest ih =>
    cases a with
    | ipAddr ip =>
      by_cases hip : ip = requested
      · subst hip
        simp [checkAddrs]
      · simp [checkAddrs, hip, ih]
    | ipNet c =>
      by_cases hc : c requested = true
      · rw [checkAddrs, if_pos hc]
        constructor
        · intro h; exact absurd h (by simp)
        · intro h
          have h2 := (h (.ipNet c) (List.mem_cons_self _ _)).2 c rfl
          simp [hc] at h2
      · rw [checkAddrs, if_neg hc, ih]
        constructor
        · intro h a ha
          rcases List.mem_cons.mp ha with rfl | ha1
          · refine ⟨fun ip hip => IfaceAddr.noConfusion hip, fun c1 hc1 => ?_⟩
            injection hc1 with h12
            rw [← h12]
            simpa using hc
          · exact h a ha1
        · intro h a ha
          exact h a (List.mem_cons_of_mem _ ha)
    | otherAddr => simp [checkAddrs, ih]

/-! Concrete inputs used by counterexamples and witnesses. -/

/-- A CONNECT request for a zero-length domain name, port 0. -/
def sDom : RStream := ⟨fun i => [5, 1, 0, 3, 0, 0, 0].getD i 0, 0⟩

/-- Environment whose resolver yields two candidates, the first denied
by the ruler and the second allowed and dialable. -/
def envFirstDenied : ConnEnv :=
  ⟨fun _ => .ok [[1], [2]],
   fun ip => if ip = [1] then .DenyConnection else .AllowConnection,
   fun _ _ => .ok (), some [127, 0, 0, 1], []⟩

/-- Environment whose resolver yields two candidates, the first allowed
but undialable and the second denied. -/
def envSecondDenied : ConnEnv :=
  ⟨fun _ => .ok [[1], [2]],
   fun ip => if ip = [2] then .DenyConnection else .AllowConnection,
   fun _ _ => .error .otherErr, some [127, 0, 0, 1], []⟩

/-- Environment whose resolver succeeds with zero candidates. -/
def envNoCandidates : ConnEnv :=
  ⟨fun _ => .ok [], fun _ => .AllowConnection, fun _ _ => .ok (), some [127, 0, 0, 1], []⟩

/-- Environment whose resolver fails. -/
def envResolveFails : ConnEnv :=
  ⟨fun _ => .error (), fun _ => .AllowConnection, fun _ _ => .ok (), none, []⟩

/-- C1, counterexample.  The candidate list is [[1], [2]]; the policy
denies [1] but allows [2], and [2] would dial successfully.  The claim
says the denied candidate is skipped and iteration continues, with the
0x02 reply only when every candidate is denied; the code instead sends
the 0x02 reply at the first denied candidate and aborts, never dialing
the allowed candidate [2] (dialed list empty). -/
theorem C1_counterexample :
    connect envFirstDenied sDom =
      ⟨[5, 2, 0, 1, 0, 0, 0, 0, 0, 0], .errorReply 2, []⟩ ∧
    envFirstDenied.allowed [2] = .AllowConnection ∧
    envFirstDenied.dial [2] 0 = .ok () := by
  decide

/-- C1, amended.  During the dial phase of connect, iteration stops at
the first candidate denied by the Access Policy: the engine sends a
Reply with status byte 0x02 and aborts; the denied candidate and all
later ones are never dialed, the dialed candidates being exactly the
(allowed, dial-failed) ones before the first denial.  In particular,
when every candidate is denied the Reply is 0x02 and no dial is
attempted for any candidate. -/
theorem C1_theorem (env : ConnEnv) (s : RStream) (rips : List IP) (k : Nat)
    (hv : s.data s.pos = protoVersion)
    (hc : s.data (s.pos + 1) = cmdConnect)
    (ha : s.data (s.pos + 3) = atypeDomain)
    (hr : env.resolver (reqDomain s) = .ok rips)
    (hk : k < rips.length)
    (hden : env.allowed (rips.getD k []) = .DenyConnection)
    (hbef : ∀ j, j < k → env.allowed (rips.getD j []) = .AllowConnection ∧
        ∃ e, env.dial (rips.getD j []) (reqPort s) = .error e) :
    connect env s = ⟨errBytes repNotAllowed, .errorReply repNotAllowed, rips.take k⟩ := by
  rw [connect_domain env s rips hv hc ha hr,
    dialLoop_denied env.allowed (fun rip => env.dial rip (reqPort s)) rips k none hk hden hbef]
  rfl

/-- C1, witness: the request of sDom against envSecondDenied, where the
first candidate is allowed but fails to dial and the second is denied:
the reply is the 0x02 error reply and only the first candidate was
dialed. -/
theorem C1_witness :
    connect envSecondDenied sDom =
      ⟨errBytes repNotAllowed, .errorReply repNotAllowed, [[1]]⟩ := by
  have h := C1_theorem envSecondDenied sDom [[1], [2]] 1 (by decide) (by decide)
    (by decide) (by decide) (by decide) (by decide)
    (fun j hj => by
      have hj0 : j = 0 := Nat.lt_one_iff.mp hj
      subst hj0
      exact ⟨by decide, ⟨.otherErr, by decide⟩⟩)
  simpa using h

/-- C2, counterexample.  The first read attempt exceeds its deadline
(a timeout error); the claim says this is fatal to the direction and
the loop never retries.  The code classifies the timeout as transient
and retries: the next read succeeds and its byte is delivered, and the
loop only ends later at a non-transient error. -/
theorem C2_counterexample :
    copyFrom [⟨[], some .timeoutE⟩, ⟨[7], none⟩, ⟨[], some .otherE⟩] [⟨1, none⟩] =
      ⟨[7], .fatalRead, true, true⟩ := by
  decide

/-- C2, amended.  A read or write attempt in the copy loop that
exceeds the rolling deadline is not fatal to its direction: the
timeout error, like a temporary error, is classified transient and the
loop retries — so the loop does retry after a deadline violation — and
since every attempt goes through sockConn.Read/Write, each retried
attempt re-arms its deadline to attempt time + 10 minutes.  The
directional task does terminate on a non-transient read or write error
(including end-of-stream), and can also terminate in the runtime
slice-bounds panic reached when zero-progress transient writes slide
the window past its remaining length; whenever it terminates it
performs its half-close (CloseRead on its source, CloseWrite on its
destination) and signals completion, and the connection is fully torn
down — the handler closes both transports — exactly when both
directions have signaled. -/
theorem C2_theorem
    (buf : Nat → Byte) (rs : List ReadEv) (ws ws1 ws4 ws5 wsW ws6 : List WriteEv)
    (d d2 out out2 : List Byte) (ce : CopyEnd) (re2 : Option RErr)
    (re : RErr) (we : WErr)
    (offset slen nr nw slen2 nr2 : Nat)
    (rsA rsB : List ReadEv) (wsA wsB : List WriteEv)
    (st : SockState) (now : Nat) (res : IOResult)
    (hre : re = .timeoutE ∨ re = .temporaryE)
    (hwe : we = .timeoutW ∨ we = .temporaryW)
    (hwp : writePhase (fun i => d.getD i (buf i)) 0 bufSize d.length ws = (out, ws1, .ok ()))
    (hwp2 : writePhase (fun i => d2.getD i (buf i)) 0 bufSize d2.length ws4 =
      (out2, ws5, .error ce))
    (hsl : nr + 1 ≤ slen)
    (hnsl : ¬(nr2 + 1 ≤ slen2))
    (hendA : (copyFrom rsA wsA).ended ≠ .ranOut)
    (hendB : (copyFrom rsB wsB).ended ≠ .ranOut) :
    copyLoop buf (⟨d, some re⟩ :: rs) ws =
      (out ++ (copyLoop (fun i => d.getD i (buf i)) rs ws1).1,
        (copyLoop (fun i => d.getD i (buf i)) rs ws1).2) ∧
    writePhase buf offset slen (nr + 1) (⟨0, some we⟩ :: wsW) =
      writePhase buf (offset + (nr + 1)) (slen - (nr + 1)) (nr + 1) wsW ∧
    (sockRead st now res).1.rdDeadline = timeoutAt now ∧
    (sockWrite st now res).1.wrDeadline = timeoutAt now ∧
    copyLoop buf (⟨[], some .otherE⟩ :: rs) ws = ([], .fatalRead) ∧
    writePhase buf offset slen (nr + 1) (⟨nw, some .otherW⟩ :: wsW) =
      ((List.range (min nw (nr + 1))).map fun i => buf (offset + i), wsW,
        .error .fatalWrite) ∧
    copyLoop buf (⟨d2, re2⟩ :: rs) ws4 = (out2, ce) ∧
    writePhase buf offset slen2 (nr2 + 1) ws6 = ([], ws6, .error .slicePanic) ∧
    (copyFrom rsA wsA).halfClosed = true ∧ (copyFrom rsA wsA).signaled = true ∧
    relayTeardown (copyFrom rsA wsA) (copyFrom rsB wsB) = true ∧
    (∀ dA dB : CopyResult,
      relayTeardown dA dB = true ↔ dA.signaled = true ∧ dB.signaled = true) := by
  refine ⟨?_, ?_, rfl, rfl, ?_, ?_, ?_, ?_, ?_, ?_, ?_, ?_⟩
  · rcases hre with rfl | rfl <;>
      · simp only [copyLoop]
        rw [hwp]
  · have hmin : (0 : Nat) ⊓ (nr + 1) = 0 := by omega
    rcases hwe with rfl | rfl <;>
      · simp only [writePhase]
        rw [if_pos hsl, hmin, Nat.sub_zero]
        simp
  · simp only [copyLoop, List.length_nil, writePhase]
  · simp only [writePhase]
    rw [if_pos hsl]
  · simp only [copyLoop]
    rw [hwp2]
  · rcases ws6 with _ | ⟨ev7, ws7⟩ <;>
      · simp only [writePhase]
        rw [if_neg hnsl]
  · exact (copyFrom_signaled rsA wsA hendA).1
  · exact (copyFrom_signaled rsA wsA hendA).2
  · have hA := (copyFrom_signaled rsA wsA hendA).2
    have hB := (copyFrom_signaled rsB wsB hendB).2
    simp [relayTeardown, hA, hB]
  · intro dA dB
    simp [relayTeardown]

/-- C2, witness: instances of the amended statement at concrete
traces: after a timed-out read delivering one byte the loop continues
with the rest of the trace (here: runs on), and two directions each
ended by a non-transient read error have signaled, upon which the
handler tears the connection down. -/
theorem C2_witness :
    copyLoop (fun _ => 0) [⟨[7], some .timeoutE⟩] [⟨1, none⟩] = ([7], .ranOut) ∧
    relayTeardown (copyFrom [⟨[], some .otherE⟩] []) (copyFrom [⟨[], some .otherE⟩] []) =
      true := by
  obtain ⟨h1, h2, h3a, h3b, h4, h5, h6, h7, h8, h9, h10, h11⟩ :=
    C2_theorem (fun _ => 0) [] [⟨1, none⟩] [] [⟨0, some .otherW⟩] [] [] []
      [7] [3] [7] [] .fatalWrite none .timeoutE .timeoutW 0 2 0 0 0 0
      [⟨[], some .otherE⟩] [⟨[], some .otherE⟩] [] [] ⟨0, 0⟩ 5 .errRes
      (Or.inl rfl) (Or.inl rfl) (by decide) (by decide) (by decide) (by decide)
      (by decide) (by decide)
  refine ⟨?_, h10⟩
  rw [h1]
  decide

/-- C3: the partial-write retry loses and duplicates bytes.  One read
yields the ten bytes 1..10; the destination accepts 6 bytes, then 4.
After the first write the code advances the window by the remaining
count instead of the written count, so the second write re-sends bytes
5..8: the destination receives 1,2,3,4,5,6,5,6,7,8 instead of 1..10
(5 and 6 duplicated, 9 and 10 lost). -/
theorem C3_theorem :
    (copyFrom [⟨[1, 2, 3, 4, 5, 6, 7, 8, 9, 10], none⟩, ⟨[], some .otherE⟩]
        [⟨6, none⟩, ⟨4, none⟩]).output = [1, 2, 3, 4, 5, 6, 5, 6, 7, 8] ∧
    (copyFrom [⟨[1, 2, 3, 4, 5, 6, 7, 8, 9, 10], none⟩, ⟨[], some .otherE⟩]
        [⟨6, none⟩, ⟨4, none⟩]).output ≠ [1, 2, 3, 4, 5, 6, 7, 8, 9, 10] := by
  decide

/-- C4, counterexample.  The resolver succeeds with zero candidates:
the loop dials nothing and leaves a nil connection with a nil error, so
connect reaches newSockConn(nil, ...) and panics dereferencing the nil
connection; nothing is written at all, in particular no Reply with
status 0x04 or 0x08 (the claim says such a Reply is sent). -/
theorem C4_counterexample :
    connect envNoCandidates sDom = ⟨[], .nilConnPanic, []⟩ ∧
    (connect envNoCandidates sDom).writes = [] := by
  decide

/-- C4, amended.  For a CONNECT request carrying a domain name: when
resolution returns an error the engine sends the Reply with status
byte 0x08 and aborts, with no dial and no success reply; when
resolution succeeds with zero usable candidates the engine attempts no
dial and sends no Reply at all (a runtime panic on the nil connection),
in particular never a success (0x00) Reply. -/
theorem C4_theorem (env1 env2 : ConnEnv) (s t : RStream)
    (hv1 : s.data s.pos = protoVersion)
    (hc1 : s.data (s.pos + 1) = cmdConnect)
    (ha1 : s.data (s.pos + 3) = atypeDomain)
    (hr1 : env1.resolver (reqDomain s) = .error ())
    (hv2 : t.data t.pos = protoVersion)
    (hc2 : t.data (t.pos + 1) = cmdConnect)
    (ha2 : t.data (t.pos + 3) = atypeDomain)
    (hr2 : env2.resolver (reqDomain t) = .ok []) :
    connect env1 s = ⟨errBytes repNotAddressable, .errorReply repNotAddressable, []⟩ ∧
    connect env2 t = ⟨[], .nilConnPanic, []⟩ := by
  constructor
  · exact connect_domain_err env1 s hv1 hc1 ha1 hr1
  · rw [connect_domain env2 t [] hv2 hc2 ha2 hr2]
    rfl

/-- C4, witness: a failing resolver produces the 0x08 error reply and
an empty resolution produces the nil-connection panic, at the concrete
request of sDom. -/
theorem C4_witness :
    connect envResolveFails sDom =
      ⟨errBytes repNotAddressable, .errorReply repNotAddressable, []⟩ ∧
    connect envNoCandidates sDom = ⟨[], .nilConnPanic, []⟩ :=
  C4_theorem envResolveFails envNoCandidates sDom sDom (by decide) (by decide)
    (by decide) (by decide) (by decide) (by decide) (by decide) (by decide)

/-- C5: the shuffle decorator is out of bounds.  On the two-address
list [[1], [2]] with first random draw 0 (a legal value of
rand.Intn(3)), the loop executes addrs[0], addrs[2] = addrs[2],
addrs[0] with the slice of length 2: an index-out-of-range panic, so
no permutation is returned at all.  Errors do pass through
unchanged. -/
theorem C5_theorem :
    shuffleLookupIP (fun _ => 0) (.ok [[1], [2]]) = none ∧
    shuffleLookupIP (fun _ => 0) (.error ()) = some (.error ()) := by
  decide

/-- C6, counterexample.  A failed read attempt at time 5 on a
connection whose read deadline was 0 leaves the deadline at
5 + timeoutDiff, not 0: the deadline is changed by a failed attempt,
contrary to the claim. -/
theorem C6_counterexample :
    (sockRead ⟨0, 0⟩ 5 .errRes).1.rdDeadline = 5 + timeoutDiff ∧
    (sockRead ⟨0, 0⟩ 5 .errRes).1.rdDeadline ≠ 0 ∧
    (sockRead ⟨0, 0⟩ 5 .errRes).2 = .errRes := by
  refine ⟨rfl, ?_, rfl⟩
  decide

/-- C6, amended.  The read (resp. write) deadline is set to the
attempt time plus 10 minutes at the start of every read (resp. write)
attempt on the connection, regardless of whether the attempt succeeds
or fails; the other deadline is untouched and the I/O result is passed
through. -/
theorem C6_theorem (st : SockState) (now : Nat) (res : IOResult) :
    (sockRead st now res).1.rdDeadline = now + timeoutDiff ∧
    (sockRead st now res).1.wrDeadline = st.wrDeadline ∧
    (sockRead st now res).2 = res ∧
    (sockWrite st now res).1.wrDeadline = now + timeoutDiff ∧
    (sockWrite st now res).1.rdDeadline = st.rdDeadline ∧
    (sockWrite st now res).2 = res :=
  ⟨rfl, rfl, rfl, rfl, rfl, rfl⟩

/-- A handshake offering the single method 0x02 (no 0x00). -/
def sNoAuth : RStream := ⟨fun i => [5, 1, 2].getD i 0, 0⟩

/-- A handshake offering the single method 0x00, followed by a CONNECT
request to 127.0.0.1:80. -/
def sAuth : RStream := ⟨fun i => [5, 1, 0, 5, 1, 0, 1, 127, 0, 0, 1, 0, 80].getD i 0, 0⟩

/-- A request whose command byte is 0x02 (BIND). -/
def sBind : RStream := ⟨fun i => [5, 2, 0, 1].getD i 0, 0⟩

/-- C7: on a handshake with the supported version whose offered method
list does not contain 0x00, the server writes {version, 0xFF} and
aborts without entering the request phase; when 0x00 is present it
writes {version, 0x00} and advances to the request phase (connect). -/
theorem C7_theorem (env : ConnEnv) (s t : RStream)
    (hvs : s.data s.pos = protoVersion)
    (hms : ((List.range (s.data (s.pos + 1))).map fun i =>
      s.data (s.pos + 2 + i)).contains 0 = false)
    (hvt : t.data t.pos = protoVersion)
    (hmt : ((List.range (t.data (t.pos + 1))).map fun i =>
      t.data (t.pos + 2 + i)).contains 0 = true) :
    handle env s = ([0x5, 0xff], .handshakeAbort) ∧
    handle env t =
      ([0x5, 0x0] ++ (connect env ⟨t.data, t.pos + 2 + t.data (t.pos + 1)⟩).writes,
        .connectDone (connect env ⟨t.data, t.pos + 2 + t.data (t.pos + 1)⟩).outcome) := by
  constructor
  · unfold handle
    rw [handshake_eval s, hvs]
    rw [if_neg (show ¬(protoVersion ≠ protoVersion) from by simp)]
    rw [if_neg (show ¬((((List.range (s.data (s.pos + 1))).map fun i =>
      s.data (s.pos + 2 + i)).contains 0) = true) from by rw [hms]; simp)]
  · unfold handle
    rw [handshake_eval t, hvt]
    rw [if_neg (show ¬(protoVersion ≠ protoVersion) from by simp)]
    rw [if_pos (show (((List.range (t.data (t.pos + 1))).map fun i =>
      t.data (t.pos + 2 + i)).contains 0) = true from hmt)]

/-- C7, witness: the method list [0x02] is refused with {5, 0xFF} and
the connection aborted; the method list [0x00] is accepted with {5, 0}
and the request phase entered. -/
theorem C7_witness :
    handle envNoCandidates sNoAuth = ([0x5, 0xff], .handshakeAbort) ∧
    handle envNoCandidates sAuth =
      ([0x5, 0x0] ++
          (connect envNoCandidates ⟨sAuth.data, sAuth.pos + 2 + sAuth.data (sAuth.pos + 1)⟩).writes,
        .connectDone
          (connect envNoCandidates
            ⟨sAuth.data, sAuth.pos + 2 + sAuth.data (sAuth.pos + 1)⟩).outcome) :=
  C7_theorem envNoCandidates sNoAuth sAuth (by decide) (by decide) (by decide) (by decide)

/-- C8: the default access policy allows exactly the globally routable
unicast candidates that are neither equal to an interface host address
nor contained in an interface network, and denies everything else,
including when interface enumeration fails. -/
theorem C8_theorem (env : NetEnv) (requestee requested : Nat) :
    (ConnectionAllowed env requestee requested = .AllowConnection ↔
      env.isGlobalUnicast requested = true ∧
      ∃ l, env.interfaceAddrs = .ok l ∧
        ∀ a ∈ l, (∀ ip, a = .ipAddr ip → ip ≠ requested) ∧
                 (∀ c, a = .ipNet c → c requested = false)) ∧
    (ConnectionAllowed env requestee requested = .AllowConnection ∨
     ConnectionAllowed env requestee requested = .DenyConnection) := by
  constructor
  · unfold ConnectionAllowed
    cases hgu : env.isGlobalUnicast requested with
    | false => simp [hgu]
    | true =>
      cases hia : env.interfaceAddrs with
      | error e => simp [hia]
      | ok l => simp [hia, checkAddrs_allow_iff]
  · rcases hc : ConnectionAllowed env requestee requested with _ | _
    · exact Or.inr rfl
    · exact Or.inl rfl

/-- C9: each configuration mutator panics with ErrorAlreadyListening
and leaves the configuration unchanged whenever the active-instance
counter is nonzero, and applies the new value when it is zero
(SetDNSResolver wrapping the given resolver in the shuffle
decorator). -/
theorem C9_theorem (s1 s2 : ServerState) (r l ru : Nat)
    (hbusy : s1.instances ≠ 0) (hidle : s2.instances = 0) :
    SetDNSResolver s1 r = (s1, some .alreadyListening) ∧
    SetLogger s1 l = (s1, some .alreadyListening) ∧
    SetRuler s1 ru = (s1, some .alreadyListening) ∧
    SetDNSResolver s2 r = ({ s2 with resolver := .shuffled r }, none) ∧
    SetLogger s2 l = ({ s2 with logger := l }, none) ∧
    SetRuler s2 ru = ({ s2 with ruler := ru }, none) := by
  have h1 : panicIfListening s1 = some .alreadyListening := by
    unfold panicIfListening
    rw [if_pos (Nat.pos_of_ne_zero hbusy)]
  have h2 : panicIfListening s2 = none := by
    unfold panicIfListening
    rw [if_neg (by simp [hidle])]
  simp [SetDNSResolver, SetLogger, SetRuler, h1, h2]

/-- C9, witness: with one active instance every mutator panics and the
state is unchanged; with zero instances the new values are applied. -/
theorem C9_witness :
    SetDNSResolver ⟨1, .defaultResolverV, 0, 0⟩ 3 =
      (⟨1, .defaultResolverV, 0, 0⟩, some .alreadyListening) ∧
    SetLogger ⟨1, .defaultResolverV, 0, 0⟩ 7 =
      (⟨1, .defaultResolverV, 0, 0⟩, some .alreadyListening) ∧
    SetRuler ⟨1, .defaultResolverV, 0, 0⟩ 9 =
      (⟨1, .defaultResolverV, 0, 0⟩, some .alreadyListening) ∧
    SetDNSResolver ⟨0, .defaultResolverV, 0, 0⟩ 3 =
      (⟨0, .shuffled 3, 0, 0⟩, none) ∧
    SetLogger ⟨0, .defaultResolverV, 0, 0⟩ 7 =
      (⟨0, .defaultResolverV, 7, 0⟩, none) ∧
    SetRuler ⟨0, .defaultResolverV, 0, 0⟩ 9 =
      (⟨0, .defaultResolverV, 0, 9⟩, none) :=
  C9_theorem ⟨1, .defaultResolverV, 0, 0⟩ ⟨0, .defaultResolverV, 0, 0⟩ 3 7 9
    (by decide) (by decide)

/-- C10: every failure Reply connect sends has the identical fixed
ten-byte form {0x05, code, 0x00, 0x01, 0, 0, 0, 0, 0, 0} — version,
status code, reserved, IPv4 address-type tag, bound address 0.0.0.0
and bound port 0 — regardless of the request contents and in
particular of its address type. -/
theorem C10_theorem (env : ConnEnv) (s : RStream) (c : Nat)
    (h : (connect env s).outcome = .errorReply c) :
    (connect env s).writes = errBytes c := by
  revert h
  unfold connect
  repeat' split
  all_goals intro h
  all_goals first
    | exact dialDispatch_err _ _ _ _ h
    | simp_all [writeErrorRes, errBytes]

/-- C10, witness: the unsupported command 0x02 draws the fixed
ten-byte failure reply with code repNotSupported. -/
theorem C10_witness :
    (connect envNoCandidates sBind).writes = errBytes repNotSupported :=
  C10_theorem envNoCandidates sBind repNotSupported (by decide)

end GoSocks
